import Mathlib

/-!
# OpenCyclo OS — verification of the orchestration core

Shallow embedding of the reactor-control daemon under
`software/opencyclo_os/` (Python):

* `config.py` — `OperatingState` enum, profile configuration records;
* `state_persistence.py` — `StatePersistence.load` / `get_recovery_state`;
* `main_loop.py` — `OpenCycloOrchestrator.run` boot transition,
  `_transition_to`, `_state_machine_tick` harvest spawning,
  `trigger_ph_shock`, `PumpController.set_speed`;
* `ph_stat_co2.py` — `PHStatController.override_ph_shock`, `CO2Valve`;
* `led_pwm_sync.py` — `LEDController.set_state`, `_set_pwm`;
* `vision_density.py` — `VisionDensitySensor._ratio_to_density`;
* `telemetry_api.py` — `TelemetryStore` and the history endpoint.

Python floats are modelled as `ℚ`; every value appearing in the claims is
exactly representable and the modelled operations are comparisons, clamps
and ring operations, so the rational model is faithful to them.
-/

/-- The operating-state enumeration from `config.py` (`class OperatingState(Enum)`
with `auto()` members, so every member is truthy for Python `or`). -/
inductive OperatingState
  | IDLE
  | NURSERY
  | LOGARITHMIC_GROWTH
  | STEADY_STATE_TURBIDOSTAT
  | PH_SHOCK
  | SHUTDOWN
deriving DecidableEq, Repr

/-- Python `OperatingState[state_name]` lookup: `some` member on a valid
member name, `none` (a `KeyError` in the source) otherwise. -/
def parseOperatingState : String → Option OperatingState
  | "IDLE" => some .IDLE
  | "NURSERY" => some .NURSERY
  | "LOGARITHMIC_GROWTH" => some .LOGARITHMIC_GROWTH
  | "STEADY_STATE_TURBIDOSTAT" => some .STEADY_STATE_TURBIDOSTAT
  | "PH_SHOCK" => some .PH_SHOCK
  | "SHUTDOWN" => some .SHUTDOWN
  | _ => none

/-- Contents of the persisted state file as `StatePersistence.load` can
observe them: the file may be missing, may fail JSON decoding, or may hold a
record with an optional `"state"` string and an optional `"nursery_start"`
timestamp (`state_persistence.py`). -/
inductive StateFileContent
  | missing
  | corruptJson
  | record (stateName : Option String) (nurseryStart : Option ℚ)
deriving DecidableEq, Repr

/-- Parsed snapshot as `get_recovery_state` consumes it: the validated
operating state plus the optional nursery-start timestamp. -/
structure SnapshotData where
  state : OperatingState
  nurseryStart : Option ℚ
deriving DecidableEq, Repr

/-- `StatePersistence.load` (`state_persistence.py` lines 79–103): `None` when
the file is absent or JSON decoding fails; otherwise reads
`data.get("state", "IDLE")`, returns `None` when that name is not a member of
`OperatingState`, and returns the record otherwise. -/
def StatePersistence.load : StateFileContent → Option SnapshotData
  | .missing => none
  | .corruptJson => none
  | .record stateName nurseryStart =>
      match parseOperatingState (stateName.getD "IDLE") with
      | none => none
      | some s => some ⟨s, nurseryStart⟩

/-- The nursery duration hard-coded in `get_recovery_state`
(`nursery_duration = 48 * 3600`, the configured 48 h). -/
def nurseryDurationS : ℚ := 48 * 3600

/-- `StatePersistence.get_recovery_state` (`state_persistence.py` lines
105–135), with `now` standing for `time.time()`: `IDLE` when `load()` gives
`None`; for a saved `NURSERY` state with a recorded `nursery_start`, compare
`elapsed = now - nursery_start` against 48 h and recover into
`LOGARITHMIC_GROWTH` when `elapsed >= duration`, else `NURSERY`; any other
saved state is returned unchanged. -/
def StatePersistence.get_recovery_state (now : ℚ) (file : StateFileContent) :
    OperatingState :=
  match StatePersistence.load file with
  | none => .IDLE
  | some data =>
      if data.state = .NURSERY then
        match data.nurseryStart with
        | some nurseryStart =>
            if now - nurseryStart ≥ nurseryDurationS then .LOGARITHMIC_GROWTH
            else .NURSERY
        | none => .NURSERY
      else data.state

/-- The boot transition target computed by `OpenCycloOrchestrator.run`
(`main_loop.py` lines 214–238): after starting the subsystem tasks, `run()`
executes `await self._transition_to(OperatingState.NURSERY)` unconditionally.
`main_loop.py` never imports `state_persistence`, so the persisted file
content is never consulted and the result is independent of it. -/
def runBootPhase (_file : StateFileContent) : OperatingState :=
  OperatingState.NURSERY

/-- C1: for every saved snapshot, `get_recovery_state` returns
`LOGARITHMIC_GROWTH` when the saved phase is `NURSERY` and the elapsed time
since the saved `nursery_start` is at least 48 h; `NURSERY` when the saved
phase is `NURSERY` and the elapsed time is less than 48 h; the saved phase
itself for any other saved phase; and `IDLE` when no snapshot exists or the
snapshot is corrupt. -/
theorem get_recovery_state_cases (now : ℚ) (file : StateFileContent) :
    (∀ d, StatePersistence.load file = some d → d.state = .NURSERY →
      ∀ t, d.nurseryStart = some t →
        (now - t ≥ nurseryDurationS →
          StatePersistence.get_recovery_state now file = .LOGARITHMIC_GROWTH) ∧
        (now - t < nurseryDurationS →
          StatePersistence.get_recovery_state now file = .NURSERY)) ∧
    (∀ d, StatePersistence.load file = some d → d.state ≠ .NURSERY →
      StatePersistence.get_recovery_state now file = d.state) ∧
    (StatePersistence.load file = none →
      StatePersistence.get_recovery_state now file = .IDLE) := by
  refine ⟨fun d hd hn t ht => ⟨fun hge => ?_, fun hlt => ?_⟩,
    fun d hd hn => ?_, fun hnone => ?_⟩
  · simp [StatePersistence.get_recovery_state, hd, hn, ht, hge]
  · simp [StatePersistence.get_recovery_state, hd, hn, ht, not_le.mpr hlt]
  · simp [StatePersistence.get_recovery_state, hd, hn]
  · simp [StatePersistence.get_recovery_state, hnone]

/-- Witness for C1: the 48 h-duration scenario from the spec — a snapshot
saved in `NURSERY` 50 h ago recovers into `LOGARITHMIC_GROWTH`. -/
theorem get_recovery_state_cases_witness :
    StatePersistence.get_recovery_state (50 * 3600)
      (.record (some "NURSERY") (some 0)) = .LOGARITHMIC_GROWTH := by
  refine ((get_recovery_state_cases (50 * 3600)
      (.record (some "NURSERY") (some 0))).1 ⟨.NURSERY, some 0⟩
      rfl rfl 0 rfl).1 ?_
  norm_num [nurseryDurationS]

/-- C2 (code divergence): `run()` does not read the persisted snapshot at
boot — it transitions to `NURSERY` unconditionally, even when a valid
snapshot recovering into a different phase is on disk. Evaluated here at a
saved `LOGARITHMIC_GROWTH` snapshot. -/
theorem runBootPhase_ignores_recovery :
    runBootPhase (.record (some "LOGARITHMIC_GROWTH") none) =
        OperatingState.NURSERY ∧
    StatePersistence.get_recovery_state 0
        (.record (some "LOGARITHMIC_GROWTH") none) =
        OperatingState.LOGARITHMIC_GROWTH ∧
    OperatingState.NURSERY ≠ OperatingState.LOGARITHMIC_GROWTH := by
  refine ⟨rfl, ?_, by decide⟩
  simp [StatePersistence.get_recovery_state, StatePersistence.load,
    parseOperatingState]

/-- Observable actuator/controller events emitted by
`PHStatController.override_ph_shock` (`ph_stat_co2.py` lines 314–374):
`CO2Valve.open` / `CO2Valve.close` calls and `self._pid.reset()`. -/
inductive ShockEv
  | valveOpen
  | valveClose
  | pidReset
deriving DecidableEq, Repr

/-- `CO2Valve` state update for one event (`ph_stat_co2.py` lines 150–191):
`open()` leaves the valve open, `close()` leaves it closed, a PID reset does
not touch the valve. (The `if not self._is_open` / `if self._is_open` guards
only suppress redundant GPIO writes; the resulting `_is_open` is the same.) -/
def valveAfterEv (v : Bool) : ShockEv → Bool
  | .valveOpen => true
  | .valveClose => false
  | .pidReset => v

/-- Valve state after a whole event trace, from initial state `v`. -/
def valveAfterTrace (v : Bool) (tr : List ShockEv) : Bool :=
  tr.foldl valveAfterEv v

/-- Phase 1 of the shock (`while True: ph = read; if ph <= target: break`):
given the successive pH readings, whether the drive loop reaches a reading at
or below the target (it emits no valve events of its own — the single
`valve.open()` happens before the loop). -/
def drivePhaseReaches (target : ℚ) : List ℚ → Bool
  | [] => false
  | ph :: rest => if ph ≤ target then true else drivePhaseReaches target rest

/-- Phase 2 of the shock, the bang-bang hold loop: for each pH reading, open
the valve above `target + 0.2`, close it below `target - 0.2`, do nothing in
the deadband (`ph_stat_co2.py` lines 351–362). -/
def holdEvents (target : ℚ) : List ℚ → List ShockEv
  | [] => []
  | ph :: rest =>
      (if ph > target + 1/5 then [ShockEv.valveOpen]
       else if ph < target - 1/5 then [ShockEv.valveClose]
       else []) ++ holdEvents target rest

/-- Event trace of a normally completing `override_ph_shock` run: phase 1
opens the valve and polls until a reading reaches the target (`none` when the
supplied readings never do — the Python loop would still be polling), phase 2
emits the bang-bang events for its readings, phase 3 closes the valve, and
the `finally` block resets the PID. -/
def overridePhShockCompleted (target : ℚ)
    (driveReadings holdReadings : List ℚ) : Option (List ShockEv) :=
  if drivePhaseReaches target driveReadings then
    some ([ShockEv.valveOpen] ++ holdEvents target holdReadings ++
      [ShockEv.valveClose, ShockEv.pidReset])
  else none

/-- Event trace of an `override_ph_shock` run cancelled mid-hold after the
given hold readings: `except asyncio.CancelledError` force-closes the valve
and the `finally` block resets the PID (`ph_stat_co2.py` lines 368–374). -/
def overridePhShockCancelledInHold (target : ℚ) (holdPart : List ℚ) :
    List ShockEv :=
  [ShockEv.valveOpen] ++ holdEvents target holdPart ++
    [ShockEv.valveClose, ShockEv.pidReset]

/-- Event trace of an `override_ph_shock` run cancelled during phase 1: the
valve was opened, then the cancellation handler closes it and the `finally`
block resets the PID. -/
def overridePhShockCancelledInDrive : List ShockEv :=
  [ShockEv.valveOpen, ShockEv.valveClose, ShockEv.pidReset]

/-- C3: every execution of `override_ph_shock` ends with the CO₂ valve
closed — on normal completion of the hold phase, on cancellation mid-hold,
and on cancellation during the drive phase, from any initial valve state. -/
theorem override_ph_shock_ends_valve_closed :
    (∀ (target : ℚ) (driveReadings holdReadings : List ℚ) (tr : List ShockEv)
        (v : Bool),
      overridePhShockCompleted target driveReadings holdReadings = some tr →
      valveAfterTrace v tr = false) ∧
    (∀ (target : ℚ) (holdPart : List ℚ) (v : Bool),
      valveAfterTrace v (overridePhShockCancelledInHold target holdPart) =
        false) ∧
    (∀ v : Bool, valveAfterTrace v overridePhShockCancelledInDrive = false) := by
  have key : ∀ (v : Bool) (l : List ShockEv),
      valveAfterTrace v (l ++ [ShockEv.valveClose, ShockEv.pidReset]) =
        false := by
    intro v l
    simp [valveAfterTrace, List.foldl_append, valveAfterEv]
  refine ⟨fun target dr hr tr v htr => ?_, fun target hp v => ?_, fun v => ?_⟩
  · unfold overridePhShockCompleted at htr
    by_cases hdr : drivePhaseReaches target dr
    · simp only [hdr, if_true, Option.some.injEq] at htr
      subst htr
      simpa using key v (ShockEv.valveOpen :: holdEvents target hr)
    · simp [hdr] at htr
  · simpa [overridePhShockCancelledInHold] using
      key v (ShockEv.valveOpen :: holdEvents target hp)
  · simpa [overridePhShockCancelledInDrive] using key v [ShockEv.valveOpen]

/-- Witness for C3: a concrete completed run (target 4.5, drive readings
reaching 4.5, one in-band hold reading) and a concrete mid-hold cancellation
both leave the valve closed. -/
theorem override_ph_shock_ends_valve_closed_witness :
    valveAfterTrace true
        (ShockEv.valveOpen ::
          (holdEvents (9/2) [5] ++ [ShockEv.valveClose, ShockEv.pidReset])) =
      false ∧
    valveAfterTrace true (overridePhShockCancelledInHold (9/2) [4]) = false := by
  constructor
  · exact override_ph_shock_ends_valve_closed.1 (9/2) [5, 9/2] [5]
      (ShockEv.valveOpen ::
        (holdEvents (9/2) [5] ++ [ShockEv.valveClose, ShockEv.pidReset]))
      true (by norm_num [overridePhShockCompleted, drivePhaseReaches])
  · exact override_ph_shock_ends_valve_closed.2.1 (9/2) [4] true

/-- `holdEvents` never emits a PID reset: the bang-bang hold loop only opens
and closes the valve. -/
theorem holdEvents_count_pidReset (target : ℚ) (readings : List ℚ) :
    (holdEvents target readings).count ShockEv.pidReset = 0 := by
  induction readings with
  | nil => simp [holdEvents]
  | cons ph rest ih =>
      simp only [holdEvents, List.count_append, ih, Nat.add_zero]
      split
      · simp
      · split <;> simp

/-- C4 counterexample: the claim says every invocation of `override_ph_shock`
performs a PID reset before beginning phase 1 and another when it exits, i.e.
at least two resets with one preceding the first valve action. On this
concrete completed run (target 4.5, one drive reading already at 4.5, empty
hold) the trace contains exactly one PID reset and its very first event is
the phase-1 `valve.open()`, not a reset. -/
theorem override_ph_shock_single_reset_counterexample :
    overridePhShockCompleted (9/2) [9/2] [] =
      some [ShockEv.valveOpen, ShockEv.valveClose, ShockEv.pidReset] ∧
    [ShockEv.valveOpen, ShockEv.valveClose, ShockEv.pidReset].count
        ShockEv.pidReset = 1 ∧
    [ShockEv.valveOpen, ShockEv.valveClose,
        ShockEv.pidReset].head? = some ShockEv.valveOpen := by
  refine ⟨?_, by decide, by decide⟩
  norm_num [overridePhShockCompleted, drivePhaseReaches, holdEvents]

/-- C4 amended: every run of `override_ph_shock` — completed, cancelled
mid-hold, or cancelled mid-drive — performs exactly one PID reset, and that
reset is the last event of the run (the `finally` clause); no reset happens
when the sequence starts. -/
theorem override_ph_shock_resets_pid_once_at_exit :
    (∀ (target : ℚ) (driveReadings holdReadings : List ℚ) (tr : List ShockEv),
      overridePhShockCompleted target driveReadings holdReadings = some tr →
      tr.count ShockEv.pidReset = 1 ∧ tr.getLast? = some ShockEv.pidReset ∧
        tr.head? = some ShockEv.valveOpen) ∧
    (∀ (target : ℚ) (holdPart : List ℚ),
      (overridePhShockCancelledInHold target holdPart).count
          ShockEv.pidReset = 1 ∧
      (overridePhShockCancelledInHold target holdPart).getLast? =
          some ShockEv.pidReset ∧
      (overridePhShockCancelledInHold target holdPart).head? =
          some ShockEv.valveOpen) ∧
    (overridePhShockCancelledInDrive.count ShockEv.pidReset = 1 ∧
      overridePhShockCancelledInDrive.getLast? = some ShockEv.pidReset ∧
      overridePhShockCancelledInDrive.head? = some ShockEv.valveOpen) := by
  have key : ∀ (target : ℚ) (hr : List ℚ),
      (ShockEv.valveOpen :: (holdEvents target hr ++
        [ShockEv.valveClose, ShockEv.pidReset])).count ShockEv.pidReset = 1 ∧
      (ShockEv.valveOpen :: (holdEvents target hr ++
        [ShockEv.valveClose, ShockEv.pidReset])).getLast? =
          some ShockEv.pidReset ∧
      (ShockEv.valveOpen :: (holdEvents target hr ++
        [ShockEv.valveClose, ShockEv.pidReset])).head? =
          some ShockEv.valveOpen := by
    intro target hr
    refine ⟨?_, ?_, rfl⟩
    · simp [List.count_cons, List.count_append,
        holdEvents_count_pidReset target hr]
    · rw [show ShockEv.valveOpen :: (holdEvents target hr ++
          [ShockEv.valveClose, ShockEv.pidReset]) =
          (ShockEv.valveOpen :: holdEvents target hr) ++
          [ShockEv.valveClose, ShockEv.pidReset] from by simp,
        List.getLast?_append_of_ne_nil _ (by simp)]
      rfl
  refine ⟨fun target dr hr tr htr => ?_, fun target hp => ?_, ?_⟩
  · unfold overridePhShockCompleted at htr
    by_cases hdr : drivePhaseReaches target dr
    · simp only [hdr, if_true, Option.some.injEq] at htr
      subst htr
      simpa using key target hr
    · simp [hdr] at htr
  · simpa [overridePhShockCancelledInHold] using key target hp
  · refine ⟨by decide, by decide, by decide⟩

/-- Witness for C4's amended theorem: a concrete completed run where the
single PID reset closes the trace. -/
theorem override_ph_shock_resets_pid_once_at_exit_witness :
    [ShockEv.valveOpen, ShockEv.valveClose, ShockEv.pidReset].count
        ShockEv.pidReset = 1 ∧
    [ShockEv.valveOpen, ShockEv.valveClose, ShockEv.pidReset].getLast? =
        some ShockEv.pidReset ∧
    [ShockEv.valveOpen, ShockEv.valveClose, ShockEv.pidReset].head? =
        some ShockEv.valveOpen :=
  override_ph_shock_resets_pid_once_at_exit.1 (9/2) [9/2] []
    [ShockEv.valveOpen, ShockEv.valveClose, ShockEv.pidReset]
    (by norm_num [overridePhShockCompleted, drivePhaseReaches, holdEvents])

/-- The orchestrator's phase bookkeeping relevant to `trigger_ph_shock`
(`main_loop.py`): `self._state` and `self._prev_state` (initially `None` in
`__init__`). -/
structure OrchPhaseState where
  state : OperatingState
  prevState : Option OperatingState
deriving DecidableEq, Repr

/-- The phase bookkeeping of `OpenCycloOrchestrator._transition_to`
(`main_loop.py` lines 280–284): `old = self._state; self._state = new_state;
self._prev_state = old`. -/
def transitionPhaseBookkeeping (o : OrchPhaseState) (newState : OperatingState) :
    OrchPhaseState :=
  ⟨newState, some o.state⟩

/-- Python `self._prev_state or OperatingState.LOGARITHMIC_GROWTH`
(`main_loop.py` line 400): `OperatingState` is a plain `Enum` whose members
are all truthy, so the expression yields `_prev_state` unless it is `None`. -/
def prevStateOrLogGrowth : Option OperatingState → OperatingState
  | none => .LOGARITHMIC_GROWTH
  | some s => s

/-- `OpenCycloOrchestrator.trigger_ph_shock` (`main_loop.py` lines 388–402)
restricted to its phase bookkeeping: transition into `PH_SHOCK` (recording
the pre-shock phase in `_prev_state`), run the shock sequence (which does not
touch the phase fields), then transition into
`self._prev_state or LOGARITHMIC_GROWTH`. -/
def trigger_ph_shock_phase (o : OrchPhaseState) : OrchPhaseState :=
  let duringShock := transitionPhaseBookkeeping o .PH_SHOCK
  let restoreState := prevStateOrLogGrowth duringShock.prevState
  transitionPhaseBookkeeping duringShock restoreState

/-- C5 counterexample: with the orchestrator in `IDLE` (its initial phase)
immediately before the shock, `trigger_ph_shock` restores `IDLE` — the
claim's "the restored phase is never IDLE or SHUTDOWN" fails (and likewise a
pre-shock `SHUTDOWN` is restored as `SHUTDOWN`). -/
theorem trigger_ph_shock_restores_idle_counterexample :
    (trigger_ph_shock_phase ⟨.IDLE, none⟩).state = OperatingState.IDLE ∧
    (trigger_ph_shock_phase ⟨.SHUTDOWN, some .STEADY_STATE_TURBIDOSTAT⟩).state =
      OperatingState.SHUTDOWN := by
  decide

/-- C5 amended: for every phase `P` active immediately before the shock,
`trigger_ph_shock` transitions the orchestrator back to exactly `P` after the
sequence completes — including when `P` is `IDLE` or `SHUTDOWN` (the
`or LOGARITHMIC_GROWTH` fallback is unreachable here because the `PH_SHOCK`
transition has just recorded `P` in `_prev_state`). -/
theorem trigger_ph_shock_restores_previous_phase (o : OrchPhaseState) :
    (trigger_ph_shock_phase o).state = o.state := by
  cases o
  rfl

/-- `HarvestConfig` from `config.py` (frozen dataclass; only present in the
industrial profile — `get_config()["harvest"]` is `None` in garage mode). -/
structure HarvestConfig where
  density_trigger_g_l : ℚ
  harvest_volume_fraction : ℚ
  harvest_valve_pin : Nat
deriving DecidableEq, Repr

/-- `INDUSTRIAL_HARVEST` from `config.py`: trigger 2.0 g/L, 15 % volume,
valve on GPIO 22. -/
def INDUSTRIAL_HARVEST : HarvestConfig :=
  { density_trigger_g_l := 2
    harvest_volume_fraction := 3/20
    harvest_valve_pin := 22 }

/-- Harvest bookkeeping of the orchestrator: the `_is_harvesting` re-entry
flag (`main_loop.py` line 198) plus the number of harvest tasks currently in
flight (spawned by `_state_machine_tick` and not yet past the `finally` of
`_trigger_harvest`). -/
structure HarvestBookkeeping where
  isHarvesting : Bool
  inFlight : Nat
deriving DecidableEq, Repr

/-- The `STEADY_STATE_TURBIDOSTAT` branch of
`OpenCycloOrchestrator._state_machine_tick` (`main_loop.py` lines 267–271):
when a harvest config exists, the density is at or above
`density_trigger_g_l` and `_is_harvesting` is not set, spawn one
`_trigger_harvest` task; otherwise spawn none. The spawned task sets
`_is_harvesting = True` before its first suspension point (`main_loop.py`
line 341), i.e. before the next tick can run, so a spawn is modelled
together with the flag being set. Returns the new bookkeeping and the
number of tasks spawned by this tick. -/
def steadyStateTick (harvestCfg : Option HarvestConfig) (density : ℚ)
    (s : HarvestBookkeeping) : HarvestBookkeeping × Nat :=
  match harvestCfg with
  | none => (s, 0)
  | some hc =>
      if density ≥ hc.density_trigger_g_l ∧ s.isHarvesting = false then
        (⟨true, s.inFlight + 1⟩, 1)
      else (s, 0)

/-- Completion of a `_trigger_harvest` task: its `finally` clause clears
`_is_harvesting` (`main_loop.py` lines 385–386) and the task leaves flight. -/
def harvestFinish (s : HarvestBookkeeping) : HarvestBookkeeping :=
  ⟨false, s.inFlight - 1⟩

/-- Interleaved history of the harvest subsystem: orchestrator ticks in
`STEADY_STATE_TURBIDOSTAT` (each with its density reading) and harvest-task
completions. -/
inductive HarvestEvent
  | tick (density : ℚ)
  | finish
deriving DecidableEq, Repr

/-- One step of the harvest bookkeeping under an event. -/
def harvestStep (harvestCfg : Option HarvestConfig) (s : HarvestBookkeeping) :
    HarvestEvent → HarvestBookkeeping
  | .tick density => (steadyStateTick harvestCfg density s).1
  | .finish => harvestFinish s

/-- Harvest bookkeeping after a whole event history, starting from the
constructor state `_is_harvesting = False`, nothing in flight. -/
def harvestRun (harvestCfg : Option HarvestConfig) (events : List HarvestEvent) :
    HarvestBookkeeping :=
  events.foldl (harvestStep harvestCfg) ⟨false, 0⟩

/-- The invariant tying the re-entry flag to the number of in-flight
harvests. -/
def harvestInv (s : HarvestBookkeeping) : Prop :=
  s.inFlight = if s.isHarvesting then 1 else 0

theorem harvestInv_step (harvestCfg : Option HarvestConfig)
    (s : HarvestBookkeeping) (e : HarvestEvent) (h : harvestInv s) :
    harvestInv (harvestStep harvestCfg s e) := by
  cases e with
  | tick density =>
      cases harvestCfg with
      | none => exact h
      | some hc =>
          by_cases hcond :
              density ≥ hc.density_trigger_g_l ∧ s.isHarvesting = false
          · simp [harvestStep, steadyStateTick, hcond, harvestInv] at h ⊢
            simp [harvestInv, hcond.2, h]
          · simpa [harvestStep, steadyStateTick, hcond] using h
  | finish =>
      simp only [harvestStep, harvestFinish, harvestInv] at h ⊢
      cases hb : s.isHarvesting <;> simp [hb] at h <;> simp [h]

/-- C6: in `STEADY_STATE_TURBIDOSTAT` with harvest configured, a tick whose
density reading is at or above the trigger spawns exactly one harvest task
when no harvest is in flight; every tick while the re-entry flag is set
spawns zero tasks (whatever the density); and along any event history from
the initial state, at most one harvest is ever in flight. -/
theorem turbidostat_single_harvest :
    (∀ (hc : HarvestConfig) (s : HarvestBookkeeping) (density : ℚ),
      s.isHarvesting = false → density ≥ hc.density_trigger_g_l →
      (steadyStateTick (some hc) density s).2 = 1) ∧
    (∀ (hc : HarvestConfig) (s : HarvestBookkeeping) (density : ℚ),
      s.isHarvesting = true → (steadyStateTick (some hc) density s).2 = 0) ∧
    (∀ (harvestCfg : Option HarvestConfig) (events : List HarvestEvent),
      (harvestRun harvestCfg events).inFlight ≤ 1) := by
  refine ⟨fun hc s density hflag htrig => ?_, fun hc s density hflag => ?_,
    fun harvestCfg events => ?_⟩
  · simp [steadyStateTick, hflag, htrig]
  · simp [steadyStateTick, hflag]
  · have hinv : harvestInv (harvestRun harvestCfg events) := by
      rw [harvestRun]
      generalize hs : (⟨false, 0⟩ : HarvestBookkeeping) = s0
      have h0 : harvestInv s0 := by simp [harvestInv, ← hs]
      clear hs
      induction events generalizing s0 with
      | nil => exact h0
      | cons e rest ih =>
          exact ih _ (harvestInv_step harvestCfg s0 e h0)
    rw [harvestInv] at hinv
    rw [hinv]
    cases (harvestRun harvestCfg events).isHarvesting <;> simp

/-- Witness for C6: the spec scenario — density 2.5 g/L against the
industrial trigger 2.0 g/L spawns exactly one task from the idle bookkeeping
state, and a tick with the same reading while the harvest is in flight
spawns zero. -/
theorem turbidostat_single_harvest_witness :
    (steadyStateTick (some INDUSTRIAL_HARVEST) (5/2) ⟨false, 0⟩).2 = 1 ∧
    (steadyStateTick (some INDUSTRIAL_HARVEST) (5/2) ⟨true, 1⟩).2 = 0 := by
  constructor
  · exact turbidostat_single_harvest.1 INDUSTRIAL_HARVEST ⟨false, 0⟩ (5/2)
      rfl (by norm_num [INDUSTRIAL_HARVEST])
  · exact turbidostat_single_harvest.2.1 INDUSTRIAL_HARVEST ⟨true, 1⟩ (5/2) rfl

/-- The per-phase pump speeds of `PumpConfig` (`config.py`; both profiles use
30 / 60 / 80 %). -/
structure PumpConfig where
  nursery_speed_percent : ℚ
  growth_speed_percent : ℚ
  steady_state_speed_percent : ℚ
  max_flow_rate_lph : ℚ
deriving DecidableEq, Repr

/-- `GARAGE_PUMP` from `config.py`. -/
def GARAGE_PUMP : PumpConfig :=
  { nursery_speed_percent := 30
    growth_speed_percent := 60
    steady_state_speed_percent := 80
    max_flow_rate_lph := 1000 }

/-- The LED fields of `LEDConfig` used by `LEDController` (`config.py`; both
profiles use the same values). -/
structure LEDConfig where
  pwm_frequency_hz : ℚ
  duty_cycle_percent : ℚ
  nursery_duty_cycle : ℚ
  nursery_intensity : ℚ
  nursery_duration_hours : ℚ
deriving DecidableEq, Repr

/-- `GARAGE_LED` from `config.py`. -/
def GARAGE_LED : LEDConfig :=
  { pwm_frequency_hz := 50
    duty_cycle_percent := 50
    nursery_duty_cycle := 100
    nursery_intensity := 30
    nursery_duration_hours := 48 }

/-- The pump actuator state kept by `PumpController` (`main_loop.py` lines
56–166): `_current_speed_pct` and `_actual_frequency_hz`. -/
structure PumpState where
  currentSpeedPct : ℚ
  actualFrequencyHz : ℚ
deriving DecidableEq, Repr

/-- `PumpController.set_speed` (`main_loop.py` lines 109–147) without a
hardware handle attached (the probe fell back to simulation): clamp the
percentage to [0,100], store it, and derive the reported frequency —
`50.0 * (percent / 100.0) if percent > 0 else 0.0` in the garage branch (the
industrial simulation branch computes the same value). The relay output is
determined by `percent > 0` and therefore by the stored state. -/
def PumpController.set_speed (_s : PumpState) (percent : ℚ) : PumpState :=
  let p := max 0 (min 100 percent)
  { currentSpeedPct := p
    actualFrequencyHz := if p > 0 then 50 * (p / 100) else 0 }

/-- The LED controller state (`led_pwm_sync.py` lines 50–61):
`_current_state`, `_current_frequency`, `_current_duty_cycle`, plus the
frequency/duty last applied to the PWM peripheral by `_set_pwm`. -/
structure LEDState where
  currentState : OperatingState
  currentFrequency : ℚ
  currentDutyCycle : ℚ
  hwFrequencyHz : ℚ
  hwDutyCyclePct : ℚ
deriving DecidableEq, Repr

/-- `LEDController._set_pwm` (`led_pwm_sync.py` lines 166–177): record the
requested duty cycle and apply `max(1.0, frequency)` /
`max(0.0, min(100.0, duty_cycle))` to the PWM output. It does NOT update
`_current_frequency`. -/
def LEDController.set_pwm (s : LEDState) (frequency dutyCycle : ℚ) : LEDState :=
  { s with
    currentDutyCycle := dutyCycle
    hwFrequencyHz := max 1 frequency
    hwDutyCyclePct := max 0 (min 100 dutyCycle) }

/-- `LEDController.set_state` (`led_pwm_sync.py` lines 88–123): record the
state, then — `NURSERY`: continuous 1000 Hz at `nursery_intensity`;
growth/turbidostat: `_current_frequency` at `duty_cycle_percent`;
`PH_SHOCK`: leave the PWM untouched; `IDLE`/`SHUTDOWN`:
`_current_frequency` at 0 % duty. -/
def LEDController.set_state (cfg : LEDConfig) (s : LEDState)
    (state : OperatingState) : LEDState :=
  let s := { s with currentState := state }
  match state with
  | .NURSERY => LEDController.set_pwm s 1000 cfg.nursery_intensity
  | .LOGARITHMIC_GROWTH =>
      LEDController.set_pwm s s.currentFrequency cfg.duty_cycle_percent
  | .STEADY_STATE_TURBIDOSTAT =>
      LEDController.set_pwm s s.currentFrequency cfg.duty_cycle_percent
  | .PH_SHOCK => s
  | .IDLE => LEDController.set_pwm s s.currentFrequency 0
  | .SHUTDOWN => LEDController.set_pwm s s.currentFrequency 0

/-- Orchestrator system state touched by `_transition_to` (`main_loop.py`
lines 280–320): phase bookkeeping, the nursery timer, the pump and LED
controllers, and the CO₂ valve (which `_transition_to` never touches). -/
structure SysState where
  phase : OperatingState
  prevPhase : Option OperatingState
  nurseryStart : Option ℚ
  pump : PumpState
  led : LEDState
  valveOpen : Bool
deriving DecidableEq, Repr

/-- `OpenCycloOrchestrator._transition_to` (`main_loop.py` lines 280–320)
with `now` standing for `time.monotonic()`: swap the phase bookkeeping, then
apply the state-specific side effects — `NURSERY`: restart the nursery timer,
pump to `nursery_speed_percent`, LED to `NURSERY`; `LOGARITHMIC_GROWTH` /
`STEADY_STATE_TURBIDOSTAT`: pump to the respective speed, LED to the phase;
`PH_SHOCK`: LED only (pump kept running); `SHUTDOWN`: `pump.stop()`
(= `set_speed(0)`) and LED to `SHUTDOWN`; no branch for `IDLE` (the `elif`
chain falls through with no side effects). The webhook dispatch has no
effect on the state modelled here. -/
def OpenCycloOrchestrator.transition_to (pumpCfg : PumpConfig)
    (ledCfg : LEDConfig) (now : ℚ) (s : SysState) (newState : OperatingState) :
    SysState :=
  let s := { s with phase := newState, prevPhase := some s.phase }
  match newState with
  | .NURSERY =>
      { s with
        nurseryStart := some now
        pump := PumpController.set_speed s.pump pumpCfg.nursery_speed_percent
        led := LEDController.set_state ledCfg s.led .NURSERY }
  | .LOGARITHMIC_GROWTH =>
      { s with
        pump := PumpController.set_speed s.pump pumpCfg.growth_speed_percent
        led := LEDController.set_state ledCfg s.led .LOGARITHMIC_GROWTH }
  | .STEADY_STATE_TURBIDOSTAT =>
      { s with
        pump := PumpController.set_speed s.pump
          pumpCfg.steady_state_speed_percent
        led := LEDController.set_state ledCfg s.led .STEADY_STATE_TURBIDOSTAT }
  | .PH_SHOCK =>
      { s with led := LEDController.set_state ledCfg s.led .PH_SHOCK }
  | .SHUTDOWN =>
      { s with
        pump := PumpController.set_speed s.pump 0
        led := LEDController.set_state ledCfg s.led .SHUTDOWN }
  | .IDLE => s

/-- The actuator-visible projection of the system state: pump speed and
reported frequency, LED frequency/duty (both the controller fields and the
values applied to the PWM peripheral), and the CO₂ valve state. -/
def actuators (s : SysState) : ℚ × ℚ × OperatingState × ℚ × ℚ × ℚ × ℚ × Bool :=
  (s.pump.currentSpeedPct, s.pump.actualFrequencyHz, s.led.currentState,
    s.led.currentFrequency, s.led.currentDutyCycle, s.led.hwFrequencyHz,
    s.led.hwDutyCyclePct, s.valveOpen)

/-- C7: for every phase transition defined by the state machine, applying
the transition's side effects twice in a row leaves the actuator state
(pump speed/frequency, LED state/frequency/duty, valve state) identical to
applying it once — for every target phase, every starting state, every
configuration, and arbitrary tick times of the two applications. -/
theorem transition_to_idempotent (pumpCfg : PumpConfig) (ledCfg : LEDConfig)
    (t1 t2 : ℚ) (s : SysState) (newState : OperatingState) :
    actuators (OpenCycloOrchestrator.transition_to pumpCfg ledCfg t2
        (OpenCycloOrchestrator.transition_to pumpCfg ledCfg t1 s newState)
        newState) =
      actuators (OpenCycloOrchestrator.transition_to pumpCfg ledCfg t1 s
        newState) := by
  cases newState <;>
    simp [OpenCycloOrchestrator.transition_to, actuators,
      PumpController.set_speed, LEDController.set_state, LEDController.set_pwm]

/-- `VisionDensitySensor._ratio_to_density` (`vision_density.py` lines
154–168): evaluate the calibration polynomial
`sum(c * ratio ** (len(coeffs) - 1 - i) for i, c in enumerate(coeffs))`
(coefficients ordered highest degree first) and floor the result at 0 with
`max(0.0, density)`. -/
def ratio_to_density (coeffs : List ℚ) (ratio : ℚ) : ℚ :=
  let density :=
    (coeffs.enum.map
      (fun ic => ic.2 * ratio ^ (coeffs.length - 1 - ic.1))).sum
  max 0 density

/-- `GARAGE_VISION.density_poly_coeffs` from `config.py`: the placeholder
polynomial `(0.0, 1.0, 0.0)`, i.e. `density = 0*r^2 + 1*r + 0`. (The
industrial profile uses the same placeholder.) -/
def GARAGE_VISION_density_poly_coeffs : List ℚ := [0, 1, 0]

/-- C8: the ratio-to-density mapping never returns a negative density — for
every coefficient list and every ratio `r`, `_ratio_to_density(r) ≥ 0` —
and with the default polynomial coefficients `(0.0, 1.0, 0.0)`,
`_ratio_to_density(0) = 0` and `_ratio_to_density(r) = r` for every
`r ≥ 0`. -/
theorem ratio_to_density_nonneg_and_default_identity :
    (∀ (coeffs : List ℚ) (r : ℚ), 0 ≤ ratio_to_density coeffs r) ∧
    ratio_to_density GARAGE_VISION_density_poly_coeffs 0 = 0 ∧
    (∀ r : ℚ, 0 ≤ r →
      ratio_to_density GARAGE_VISION_density_poly_coeffs r = r) := by
  refine ⟨fun coeffs r => le_max_left 0 _, ?_, fun r hr => ?_⟩
  · norm_num [ratio_to_density, GARAGE_VISION_density_poly_coeffs, List.enum]
  · have hpoly :
        ((GARAGE_VISION_density_poly_coeffs.enum.map
          (fun ic => ic.2 *
            r ^ (GARAGE_VISION_density_poly_coeffs.length - 1 - ic.1))).sum)
          = r := by
      norm_num [GARAGE_VISION_density_poly_coeffs, List.enum]
    simp only [ratio_to_density, hpoly]
    exact max_eq_right hr

/-- Witness for C8: the mapping evaluated at the concrete ratio 3 with the
default coefficients yields 3 (and is thereby also non-negative there). -/
theorem ratio_to_density_nonneg_and_default_identity_witness :
    ratio_to_density GARAGE_VISION_density_poly_coeffs 3 = 3 :=
  ratio_to_density_nonneg_and_default_identity.2.2 3 (by norm_num)

/-- One ring-buffer entry `{"ts": ts, "value": value}`
(`telemetry_api.py` line 76). -/
structure TelemetryEntry where
  ts : ℚ
  value : ℚ
deriving DecidableEq, Repr

/-- Python `dict` lookup on an insertion-ordered association list. -/
def assocLookup {α : Type} : List (String × α) → String → Option α
  | [], _ => none
  | kv :: rest, k => if kv.1 = k then some kv.2 else assocLookup rest k

/-- Python `d[k] = v` on an insertion-ordered association list: replace in
place when the key exists, append otherwise. -/
def assocSet {α : Type} : List (String × α) → String → α → List (String × α)
  | [], k, v => [(k, v)]
  | kv :: rest, k, v =>
      if kv.1 = k then (k, v) :: rest else kv :: assocSet rest k v

/-- `collections.deque(maxlen=n).append`: append and evict the oldest
entries beyond the capacity. -/
def dequeAppend {α : Type} (maxlen : Nat) (xs : List α) (x : α) : List α :=
  let ys := xs ++ [x]
  if maxlen < ys.length then ys.drop (ys.length - maxlen) else ys

/-- The `TelemetryStore` of `telemetry_api.py` (lines 51–105): capacity, the
per-metric ring buffers `_data` (pre-created for the nine known metric names,
never destroyed), the latest-value map `_latest`, and `_state`. -/
structure TelemetryStore where
  maxHistory : Nat
  data : List (String × List TelemetryEntry)
  latest : List (String × ℚ)
  state : OperatingState
deriving DecidableEq, Repr

/-- The metric series created by `TelemetryStore.__init__`
(`telemetry_api.py` lines 57–69). -/
def telemetryDefaultMetrics : List String :=
  ["ph", "density_g_l", "green_ratio", "led_freq_hz", "led_duty_pct",
   "pump_speed_pct", "pump_freq_hz", "temperature_c", "co2_valve_open"]

/-- A freshly constructed `TelemetryStore(max_history)`: one empty ring
buffer per known metric, empty latest-value map, state `IDLE`. -/
def TelemetryStore.init (maxHistory : Nat) : TelemetryStore :=
  { maxHistory := maxHistory
    data := telemetryDefaultMetrics.map (fun m => (m, []))
    latest := []
    state := .IDLE }

/-- `TelemetryStore.push` (`telemetry_api.py` lines 74–79), with `ts` the
resolved timestamp: append the entry to the metric's ring buffer only when a
series for the metric exists (`if metric in self._data`), and always record
the value in the latest-value map. -/
def TelemetryStore.push (store : TelemetryStore) (metric : String)
    (value ts : ℚ) : TelemetryStore :=
  { store with
    data := store.data.map (fun kv =>
      if kv.1 = metric then
        (kv.1, dequeAppend store.maxHistory kv.2 ⟨ts, value⟩)
      else kv)
    latest := assocSet store.latest metric value }

/-- `TelemetryStore.get_history` (`telemetry_api.py` lines 85–89): `[]` for
a metric with no series, otherwise the Python slice `items[-limit:]` — the
whole list when `limit` is 0, the last `limit` entries otherwise. -/
def TelemetryStore.get_history (store : TelemetryStore) (metric : String)
    (limit : Nat) : List TelemetryEntry :=
  match assocLookup store.data metric with
  | none => []
  | some items =>
      if limit = 0 then items else items.drop (items.length - limit)

/-- The parts of `TelemetryStore.get_snapshot` (`telemetry_api.py` lines
91–105) determined by the store: the state name and the full latest-value
map (`"metrics": {k: v for k, v in self._latest.items()}`). -/
structure TelemetrySnapshot where
  state : OperatingState
  metrics : List (String × ℚ)
deriving DecidableEq, Repr

/-- `TelemetryStore.get_snapshot`, restricted to its store-determined
fields. -/
def TelemetryStore.get_snapshot (store : TelemetryStore) : TelemetrySnapshot :=
  { state := store.state, metrics := store.latest }

/-- Response of `GET /api/v1/history/{metric}` as far as the claims are
concerned: 404 or the 200 payload `{"metric", "count", "data"}`. -/
inductive HistoryResponse
  | notFound
  | ok (metric : String) (count : Nat) (entries : List TelemetryEntry)
deriving DecidableEq, Repr

/-- The `get_history` endpoint (`telemetry_api.py` lines 203–219): fetch
`telemetry.get_history(metric, limit)` and answer 404 whenever the result is
empty (`if not data`), else 200 with the entries. FastAPI's
`Query(default=100, ge=1, le=3600)` guarantees `1 ≤ limit` for every request
that reaches this code. -/
def get_history_endpoint (store : TelemetryStore) (metric : String)
    (limit : Nat) : HistoryResponse :=
  let data := store.get_history metric limit
  if data = [] then .notFound else .ok metric data.length data

/-- C9 counterexample: `"ph"` is a known metric — the fresh store pre-creates
its (empty) ring buffer — yet the history endpoint answers 404 for it,
because the endpoint tests `if not data`, which cannot tell an unknown
metric from a known metric with no stored entries. -/
theorem history_endpoint_404_on_known_empty_metric :
    get_history_endpoint (TelemetryStore.init 3600) "ph" 100 =
      HistoryResponse.notFound ∧
    assocLookup (TelemetryStore.init 3600).data "ph" = some [] := by
  constructor <;> rfl

/-- C9 amended: within the validated limit range (`1 ≤ limit`), the history
endpoint responds 404 exactly when the metric has no series OR its series is
empty; for a known metric with at least one stored entry it returns the
stored entries' most recent `limit`-suffix — a suffix of the chronological
series, hence chronological, of length at most `limit`. -/
theorem history_endpoint_404_and_content (store : TelemetryStore)
    (metric : String) (limit : Nat) (hlim : 1 ≤ limit) :
    (get_history_endpoint store metric limit = HistoryResponse.notFound ↔
      assocLookup store.data metric = none ∨
      assocLookup store.data metric = some []) ∧
    (∀ items, assocLookup store.data metric = some items → items ≠ [] →
      get_history_endpoint store metric limit =
        HistoryResponse.ok metric (items.drop (items.length - limit)).length
          (items.drop (items.length - limit)) ∧
      (items.drop (items.length - limit)).length ≤ limit ∧
      List.IsSuffix (items.drop (items.length - limit)) items) := by
  have hlim0 : limit ≠ 0 := by omega
  have hdropne : ∀ items : List TelemetryEntry, items ≠ [] →
      items.drop (items.length - limit) ≠ [] := by
    intro items hi hd
    have hlen : 0 < items.length := List.length_pos.mpr hi
    have := congrArg List.length hd
    rw [List.length_drop] at this
    simp only [List.length_nil] at this
    omega
  constructor
  · unfold get_history_endpoint TelemetryStore.get_history
    cases h : assocLookup store.data metric with
    | none => simp [h]
    | some items =>
        by_cases hi : items = []
        · subst hi
          simp [hlim0]
        · simp [hlim0, hdropne items hi, hi]
  · intro items h hi
    refine ⟨?_, ?_, List.drop_suffix _ _⟩
    · unfold get_history_endpoint TelemetryStore.get_history
      simp [h, hlim0, hdropne items hi]
    · rw [List.length_drop]
      omega

/-- Witness for C9's amended theorem: pushing one `ph` reading into a fresh
store makes the endpoint answer 200 with exactly that entry. -/
theorem history_endpoint_404_and_content_witness :
    get_history_endpoint ((TelemetryStore.init 3600).push "ph" 7 1) "ph" 100 =
      HistoryResponse.ok "ph" 1 [⟨1, 7⟩] := by
  have happ := (history_endpoint_404_and_content
      ((TelemetryStore.init 3600).push "ph" 7 1) "ph" 100 (by norm_num)).2
      [⟨1, 7⟩] rfl (by simp)
  simpa using happ.1

theorem assocLookup_none_map_fixed {α : Type} (l : List (String × α))
    (k : String) (f : String × α → String × α)
    (h : assocLookup l k = none) :
    (l.map fun kv => if kv.1 = k then f kv else kv) = l := by
  induction l with
  | nil => rfl
  | cons kv rest ih =>
      rw [assocLookup] at h
      by_cases hk : kv.1 = k
      · simp [hk] at h
      · simp only [hk, if_neg hk] at h ⊢
        simp [List.map_cons, if_neg hk, ih h]

theorem assocLookup_assocSet_self {α : Type} (l : List (String × α))
    (k : String) (v : α) : assocLookup (assocSet l k v) k = some v := by
  induction l with
  | nil => simp [assocSet, assocLookup]
  | cons kv rest ih =>
      by_cases hk : kv.1 = k
      · simp [assocSet, hk, assocLookup]
      · simp [assocSet, hk, assocLookup, ih]

theorem mem_assocSet_self {α : Type} (l : List (String × α)) (k : String)
    (v : α) : (k, v) ∈ assocSet l k v := by
  induction l with
  | nil => simp [assocSet]
  | cons kv rest ih =>
      by_cases hk : kv.1 = k
      · simp [assocSet, hk]
      · simp only [assocSet, if_neg hk]
        exact List.mem_cons_of_mem kv ih

/-- C10: for a metric name with no pre-created ring-buffer series,
`TelemetryStore.push` appends to no ring buffer (`_data` is unchanged), yet
records the value in the latest-value map, so a subsequent `get_snapshot`
reports the unknown metric name with its value among the snapshot's
metrics. (The embedded `push` is total: the Python body raises nothing —
the only conditional skips the ring-buffer append.) -/
theorem push_unknown_metric_snapshot (store : TelemetryStore)
    (metric : String) (v ts : ℚ)
    (h : assocLookup store.data metric = none) :
    (store.push metric v ts).data = store.data ∧
    assocLookup (store.push metric v ts).latest metric = some v ∧
    (metric, v) ∈ ((store.push metric v ts).get_snapshot).metrics := by
  refine ⟨?_, ?_, ?_⟩
  · exact assocLookup_none_map_fixed store.data metric _ h
  · exact assocLookup_assocSet_self store.latest metric v
  · exact mem_assocSet_self store.latest metric v

/-- Witness for C10: pushing the unknown metric `"cpu_temp"` into a fresh
store leaves every ring buffer untouched and surfaces the value in the
snapshot. -/
theorem push_unknown_metric_snapshot_witness :
    ((TelemetryStore.init 3600).push "cpu_temp" 7 0).data =
        (TelemetryStore.init 3600).data ∧
    assocLookup ((TelemetryStore.init 3600).push "cpu_temp" 7 0).latest
        "cpu_temp" = some 7 ∧
    ("cpu_temp", (7 : ℚ)) ∈
      (((TelemetryStore.init 3600).push "cpu_temp" 7 0).get_snapshot).metrics :=
  push_unknown_metric_snapshot (TelemetryStore.init 3600) "cpu_temp" 7 0 rfl
